import Mathlib

/-!
Verification development for the fgcm photometric-calibration core:
a shallow embedding of the chi-squared/gradient engine (fgcmChisq.py),
the gray-residual engine (fgcmGray.py) and the repeatability engine
(fgcmSigFgcm.py), over exact rational arithmetic.

Modelling conventions:
- numpy float arrays become functions into the rationals; vectorized
  accumulations (np.add.at / np.multiply.at) become sums/products over
  the index lists they traverse;
- the external collaborators that are not part of the embedded sources
  (FgcmLUT, FgcmParameters, FgcmStars bulk routines, numpy/scipy
  utilities) are carried as opaque-by-choice function fields of the
  context structures, documented where they appear;
- sqrt and log10 are carried as context function fields, since the
  claims under study depend on which arguments flow into them, not on
  their analytic properties;
- the embedded configuration fixes hasExternalPWV = False,
  useRetrievedPWV = False, hasExternalTau = False, useMatchCache = False,
  fgcmGray = None, and the single-worker (debug) scheduling path, which
  computes the same totals as the multi-worker path sums.
-/

/-- Observation row of the shared star-store table (one star detection on
one CCD in one exposure).  ccdIdx is already shifted by ccdStartIndex. -/
structure FgcmObs where
  objIdx : ℕ
  expIdx : ℕ
  bandIdx : ℕ
  lutFilterIdx : ℕ
  ccdIdx : ℕ
  secZenith : ℚ
  magADU : ℚ
  magADUModelErr : ℚ
  flag : ℕ

/-- Signature of a LUT integral evaluator:
filter index, ccd index, pwv, o3, lnTau, alpha, secZenith, pmb. -/
abbrev LutFn : Type := ℕ → ℕ → ℚ → ℚ → ℚ → ℚ → ℚ → ℚ → ℚ

/-- Signature of a LUT I1-derivative evaluator: same arguments plus the
per-observation SED slope. -/
abbrev LutFnI1 : Type := ℕ → ℕ → ℚ → ℚ → ℚ → ℚ → ℚ → ℚ → ℚ → ℚ

/-- Modelled from the spec: the atmosphere/throughput lookup-table
collaborator (FgcmLUT, external to the embedded sources).  It returns
integrated passband quantities I0 and I1 and analytic log-derivatives
with respect to the atmospheric parameters, plus optional
first-derivative contributions through I1 gated by a capability flag. -/
structure FgcmLUT where
  computeI0 : LutFn
  computeI1 : LutFn
  dLdPWV : LutFn
  dLdO3 : LutFn
  dLdTau : LutFn
  dLdAlpha : LutFn
  hasI1Derivatives : Bool
  dLdPWVI1 : LutFnI1
  dLdO3I1 : LutFnI1
  dLdTauI1 : LutFnI1
  dLdAlphaI1 : LutFnI1

/-- Per-exposure atmospheric and throughput state produced by the
parameter container after a reload from the flat fit vector. -/
structure ExpAtm where
  pwv : ℕ → ℚ
  o3 : ℕ → ℚ
  lnTau : ℕ → ℚ
  alpha : ℕ → ℚ
  pmb : ℕ → ℚ
  qeSys : ℕ → ℚ

/-- Unit-conversion factors for the active parameter families, as
returned by the parameter container for a given fitterUnits flag. -/
structure UnitDict where
  o3Unit : ℚ
  alphaUnit : ℚ
  pwvUnit : ℚ
  pwvPerSlopeUnit : ℚ
  lnTauUnit : ℚ
  lnTauSlopeUnit : ℚ
  qeSysUnit : ℚ
  qeSysSlopeUnit : ℚ

/-- Static evaluation context for the chi-squared engine: the star-store
tables, the per-exposure static metadata, the LUT collaborator, and the
external routines of the parameter container and star store. -/
structure ChisqCtx where
  nObj : ℕ
  nObs : ℕ
  nNights : ℕ
  nWash : ℕ
  obs : ℕ → FgcmObs
  objFlag : ℕ → ℕ
  expFlag : ℕ → ℕ
  expNightIndex : ℕ → ℕ
  expWashIndex : ℕ → ℕ
  expDeltaUT : ℕ → ℚ
  expMJD : ℕ → ℚ
  washMJD : ℕ → ℚ
  fitBands : List ℕ
  I10StdBand : ℕ → ℚ
  noChromaticCorrections : Bool
  lut : FgcmLUT
  reload : Bool → List ℚ → ExpAtm
  units : Bool → UnitDict
  sedCompute : (ℕ → ℕ → ℚ) → (ℕ → ℕ → ℚ) → (ℕ → ℕ → ℚ)
  log10 : ℚ → ℚ
  sqrtQ : ℚ → ℚ

/-- Mutable shared-memory state threaded through chi-squared calls. -/
structure ChisqState where
  objMagStdMean : ℕ → ℕ → ℚ
  objMagStdMeanNoChrom : ℕ → ℕ → ℚ
  objMagStdMeanErr : ℕ → ℕ → ℚ
  objSEDSlope : ℕ → ℕ → ℚ
  obsMagStd : ℕ → ℚ
  nActualFitPars : ℕ
  fitChisqs : List ℚ
  magStdComputed : Bool
  allMagStdComputed : Bool

/-- Option flags of FgcmChisq.__call__ covered by the embedding. -/
structure ChisqOpts where
  fitterUnits : Bool
  computeDerivatives : Bool
  computeSEDSlopes : Bool
  allExposures : Bool
  includeReserve : Bool

/-- Explicit failure conditions raised by FgcmChisq.__call__. -/
inductive CallErr where
  | badOptionCombo : CallErr
  | noGoodStars : CallErr
  | matchSanity : CallErr
  | nonPositiveDOF : CallErr
deriving DecidableEq

/-- Modelled from the spec: the RESERVED bit of the star-store object
flag dictionary (fgcmUtilities objFlagDict, external to the embedded
sources).  Only the induced mask matters for the embedding. -/
def objFlagRESERVED : ℕ := 16

/-- Mask 255 with the RESERVED bit cleared, as used for includeReserve. -/
def reservedMask : ℕ := 239

def obsObj (C : ChisqCtx) (i : ℕ) : ℕ := (C.obs i).objIdx

def obsBand (C : ChisqCtx) (i : ℕ) : ℕ := (C.obs i).bandIdx

def obsExp (C : ChisqCtx) (i : ℕ) : ℕ := (C.obs i).expIdx

def obsNight (C : ChisqCtx) (i : ℕ) : ℕ := C.expNightIndex ((C.obs i).expIdx)

def obsWash (C : ChisqCtx) (i : ℕ) : ℕ := C.expWashIndex ((C.obs i).expIdx)

/-- Good-star selection: flag clear, or everything but RESERVED clear
when includeReserve is set. -/
def goodStarsOf (C : ChisqCtx) (o : ChisqOpts) : List ℕ :=
  if o.includeReserve then
    (List.range C.nObj).filter (fun s => Nat.land (C.objFlag s) reservedMask == 0)
  else
    (List.range C.nObj).filter (fun s => C.objFlag s == 0)

/-- Pre-match sanity condition of the source: the first selected star has
no row in the observation table, so the matched index list does not start
at zero (or is empty) and the call aborts. -/
def firstStarUnmatched (C : ChisqCtx) (o : ChisqOpts) : Prop :=
  ∀ i ∈ List.range C.nObs, (C.obs i).objIdx ≠ (goodStarsOf C o).headD 0

instance (C : ChisqCtx) (o : ChisqOpts) : Decidable (firstStarUnmatched C o) :=
  List.decidableBAll _ _

/-- Eligible observation list: observations of good stars, with bad
observations cut, and bad exposures also cut unless allExposures. -/
def goodObsOf (C : ChisqCtx) (o : ChisqOpts) : List ℕ :=
  (List.range C.nObs).filter (fun i =>
    (goodStarsOf C o).contains ((C.obs i).objIdx) &&
    (if o.allExposures then (C.obs i).flag == 0
     else (C.expFlag ((C.obs i).expIdx) == 0) && ((C.obs i).flag == 0)))

/-- Observations used in the fit: eligible observations in fit bands. -/
def fitObsOf (C : ChisqCtx) (o : ChisqOpts) : List ℕ :=
  (goodObsOf C o).filter (fun i => C.fitBands.contains ((C.obs i).bandIdx))

def nFitObsOf (C : ChisqCtx) (o : ChisqOpts) : ℕ := (fitObsOf C o).length

/-- Per-exposure atmospheric state for the supplied flat parameter
vector, via the external parameter-container reload. -/
def atmOf (C : ChisqCtx) (p : List ℚ) (o : ChisqOpts) : ExpAtm :=
  C.reload o.fitterUnits p

def lutEval (C : ChisqCtx) (atm : ExpAtm) (f : LutFn) (i : ℕ) : ℚ :=
  let e := (C.obs i).expIdx
  f (C.obs i).lutFilterIdx (C.obs i).ccdIdx (atm.pwv e) (atm.o3 e)
    (atm.lnTau e) (atm.alpha e) (C.obs i).secZenith (atm.pmb e)

def lutEvalI1 (C : ChisqCtx) (atm : ExpAtm) (f : LutFnI1) (s : ℚ) (i : ℕ) : ℚ :=
  let e := (C.obs i).expIdx
  f (C.obs i).lutFilterIdx (C.obs i).ccdIdx (atm.pwv e) (atm.o3 e)
    (atm.lnTau e) (atm.alpha e) (C.obs i).secZenith (atm.pmb e) s

def obsI0W (C : ChisqCtx) (atm : ExpAtm) (i : ℕ) : ℚ :=
  lutEval C atm C.lut.computeI0 i

/-- Normalized color term I1/I0 for an observation. -/
def obsI10W (C : ChisqCtx) (atm : ExpAtm) (i : ℕ) : ℚ :=
  lutEval C atm C.lut.computeI1 i / obsI0W C atm i

/-- Instrument-corrected magnitude: raw ADU magnitude plus
2.5 log10 I0 plus the exposure throughput term. -/
def obsMagW (C : ChisqCtx) (atm : ExpAtm) (i : ℕ) : ℚ :=
  (C.obs i).magADU + (5/2) * C.log10 (obsI0W C atm i) + atm.qeSys ((C.obs i).expIdx)

/-- Model-error variance of an observation. -/
def obsErr2W (C : ChisqCtx) (i : ℕ) : ℚ := ((C.obs i).magADUModelErr) ^ 2

/-- Inverse-variance weight of an observation. -/
def obsWgt (C : ChisqCtx) (i : ℕ) : ℚ := 1 / obsErr2W C i

/-- Linearized chromatic correction, zeroed when chromatic corrections
are globally disabled. -/
def deltaStdW (C : ChisqCtx) (atm : ExpAtm) (slopes : ℕ → ℕ → ℚ) (i : ℕ) : ℚ :=
  if C.noChromaticCorrections then 0
  else (5/2) * C.log10 ((1 + slopes (obsObj C i) (obsBand C i) * obsI10W C atm i) /
                        (1 + slopes (obsObj C i) (obsBand C i) * C.I10StdBand (obsBand C i)))

/-- Standardized magnitude written back for an eligible observation. -/
def obsMagStdNewW (C : ChisqCtx) (atm : ExpAtm) (slopes : ℕ → ℕ → ℚ) (i : ℕ) : ℚ :=
  obsMagW C atm i + deltaStdW C atm slopes i

/-- Eligible observations of a given object in a given band. -/
def cellObsW (C : ChisqCtx) (o : ChisqOpts) (ob b : ℕ) : List ℕ :=
  (goodObsOf C o).filter (fun i => ((C.obs i).objIdx == ob) && ((C.obs i).bandIdx == b))

/-- Summed inverse-variance weight of an object/band cell. -/
def wtSumW (C : ChisqCtx) (o : ChisqOpts) (ob b : ℕ) : ℚ :=
  ((cellObsW C o ob b).map (fun i => obsWgt C i)).sum

/-- Mean standardized magnitude of an object/band cell; cells with no
weight keep the reset sentinel 99. -/
def meanStdW (C : ChisqCtx) (atm : ExpAtm) (slopes : ℕ → ℕ → ℚ) (o : ChisqOpts) (ob b : ℕ) : ℚ :=
  if 0 < wtSumW C o ob b then
    ((cellObsW C o ob b).map (fun i => obsMagStdNewW C atm slopes i * obsWgt C i)).sum /
      wtSumW C o ob b
  else 99

/-- Mean instrument-corrected (non-chromatic) magnitude of a cell. -/
def meanNoChromW (C : ChisqCtx) (atm : ExpAtm) (o : ChisqOpts) (ob b : ℕ) : ℚ :=
  if 0 < wtSumW C o ob b then
    ((cellObsW C o ob b).map (fun i => obsMagW C atm i * obsWgt C i)).sum / wtSumW C o ob b
  else 99

/-- Stored mean-magnitude error of a cell: sqrt of the reciprocal summed
weight, or the reset sentinel 99. -/
def meanErrW (C : ChisqCtx) (o : ChisqOpts) (ob b : ℕ) : ℚ :=
  if 0 < wtSumW C o ob b then C.sqrtQ (1 / wtSumW C o ob b) else 99

/-- Squared stored mean-magnitude error read back for an observation. -/
def meanErr2W (C : ChisqCtx) (o : ChisqOpts) (i : ℕ) : ℚ :=
  (meanErrW C o (obsObj C i) (obsBand C i)) ^ 2

/-- Residual of an observation against its object/band mean. -/
def deltaW (C : ChisqCtx) (atm : ExpAtm) (slopes : ℕ → ℕ → ℚ) (o : ChisqOpts) (i : ℕ) : ℚ :=
  obsMagStdNewW C atm slopes i - meanStdW C atm slopes o (obsObj C i) (obsBand C i)

/-- Total accumulated weighted chi-squared: the sum over fit-band
observations of weight times squared residual. -/
def chisqTotalOf (C : ChisqCtx) (atm : ExpAtm) (slopes : ℕ → ℕ → ℚ) (o : ChisqOpts) : ℚ :=
  ((fitObsOf C o).map (fun i => (deltaW C atm slopes o i) ^ 2 * obsWgt C i)).sum

/-- Log-derivative with respect to PWV, with the I1 contribution added
when the LUT provides it. -/
def dLdPWVW (C : ChisqCtx) (atm : ExpAtm) (slopes : ℕ → ℕ → ℚ) (i : ℕ) : ℚ :=
  lutEval C atm C.lut.dLdPWV i +
    (if C.lut.hasI1Derivatives then
       lutEvalI1 C atm C.lut.dLdPWVI1 (slopes (obsObj C i) (obsBand C i)) i
     else 0)

/-- Log-derivative with respect to O3, with the I1 contribution. -/
def dLdO3W (C : ChisqCtx) (atm : ExpAtm) (slopes : ℕ → ℕ → ℚ) (i : ℕ) : ℚ :=
  lutEval C atm C.lut.dLdO3 i +
    (if C.lut.hasI1Derivatives then
       lutEvalI1 C atm C.lut.dLdO3I1 (slopes (obsObj C i) (obsBand C i)) i
     else 0)

/-- Log-derivative with respect to lnTau, with the I1 contribution. -/
def dLdTauW (C : ChisqCtx) (atm : ExpAtm) (slopes : ℕ → ℕ → ℚ) (i : ℕ) : ℚ :=
  lutEval C atm C.lut.dLdTau i +
    (if C.lut.hasI1Derivatives then
       lutEvalI1 C atm C.lut.dLdTauI1 (slopes (obsObj C i) (obsBand C i)) i
     else 0)

/-- Log-derivative with respect to alpha, with the I1 contribution. -/
def dLdAlphaW (C : ChisqCtx) (atm : ExpAtm) (slopes : ℕ → ℕ → ℚ) (i : ℕ) : ℚ :=
  lutEval C atm C.lut.dLdAlpha i +
    (if C.lut.hasI1Derivatives then
       lutEvalI1 C atm C.lut.dLdAlphaI1 (slopes (obsObj C i) (obsBand C i)) i
     else 0)

/-- Fit observations on a given night. -/
def nightObsW (C : ChisqCtx) (o : ChisqOpts) (n : ℕ) : List ℕ :=
  (fitObsOf C o).filter (fun i => obsNight C i == n)

/-- Fit observations in a given wash interval. -/
def washObsW (C : ChisqCtx) (o : ChisqOpts) (w : ℕ) : List ℕ :=
  (fitObsOf C o).filter (fun i => obsWash C i == w)

/-- Night/band accumulator magdLd of the source: the sum over fit
observations in the night/band cell of (derivative factor times weight),
subsequently multiplied, once per fit observation in the cell, by that
observation's squared stored mean-magnitude error (np.add.at followed by
np.multiply.at on the same index list). -/
def nightCellMW (C : ChisqCtx) (o : ChisqOpts) (fac : ℕ → ℚ) (n b : ℕ) : ℚ :=
  let cell := (fitObsOf C o).filter (fun i => (obsNight C i == n) && ((C.obs i).bandIdx == b))
  ((cell.map (fun i => fac i * obsWgt C i)).sum) * ((cell.map (fun i => meanErr2W C o i)).prod)

/-- Wash/band accumulator, built exactly like the night/band one. -/
def washCellMW (C : ChisqCtx) (o : ChisqOpts) (fac : ℕ → ℚ) (w b : ℕ) : ℚ :=
  let cell := (fitObsOf C o).filter (fun i => (obsWash C i == w) && ((C.obs i).bandIdx == b))
  ((cell.map (fun i => fac i * obsWgt C i)).sum) * ((cell.map (fun i => meanErr2W C o i)).prod)

/-- Nights that receive any fit observation (np.unique of the night
indices of the fit-use set). -/
def uNightBW (C : ChisqCtx) (o : ChisqOpts) (n : ℕ) : Bool :=
  (fitObsOf C o).any (fun i => obsNight C i == n)

/-- Wash intervals that receive any fit observation. -/
def uWashBW (C : ChisqCtx) (o : ChisqOpts) (w : ℕ) : Bool :=
  (fitObsOf C o).any (fun i => obsWash C i == w)

/-- Accumulated gradient entry of a per-night family: the raw sum of
weighted-residual times (factor minus subtracted accumulator), scaled by
2/unit at the nights present in the fit-use set. -/
def nightFamilySlice (C : ChisqCtx) (atm : ExpAtm) (slopes : ℕ → ℕ → ℚ) (o : ChisqOpts)
    (fac : ℕ → ℚ) (sub : ℕ → ℕ → ℚ) (unit : ℚ) (n : ℕ) : ℚ :=
  let raw := ((nightObsW C o n).map
    (fun i => deltaW C atm slopes o i * obsWgt C i * (fac i - sub n ((C.obs i).bandIdx)))).sum
  if uNightBW C o n then raw * (2 / unit) else raw

/-- Accumulated gradient entry of a per-wash family. -/
def washFamilySlice (C : ChisqCtx) (atm : ExpAtm) (slopes : ℕ → ℕ → ℚ) (o : ChisqOpts)
    (fac : ℕ → ℚ) (sub : ℕ → ℕ → ℚ) (unit : ℚ) (w : ℕ) : ℚ :=
  let raw := ((washObsW C o w).map
    (fun i => deltaW C atm slopes o i * obsWgt C i * (fac i - sub w ((C.obs i).bandIdx)))).sum
  if uWashBW C o w then raw * (2 / unit) else raw

/-- Per-night O3 gradient slice. -/
def o3SliceW (C : ChisqCtx) (atm : ExpAtm) (slopes : ℕ → ℕ → ℚ) (o : ChisqOpts) (n : ℕ) : ℚ :=
  nightFamilySlice C atm slopes o (dLdO3W C atm slopes)
    (nightCellMW C o (dLdO3W C atm slopes)) ((C.units o.fitterUnits).o3Unit) n

/-- Per-night alpha gradient slice. -/
def alphaSliceW (C : ChisqCtx) (atm : ExpAtm) (slopes : ℕ → ℕ → ℚ) (o : ChisqOpts) (n : ℕ) : ℚ :=
  nightFamilySlice C atm slopes o (dLdAlphaW C atm slopes)
    (nightCellMW C o (dLdAlphaW C atm slopes)) ((C.units o.fitterUnits).alphaUnit) n

/-- Per-night PWV nightly-intercept gradient slice.  The subtracted array
in the source is magdLdPWVOffset, which belongs to the external-PWV
offset family and stays identically zero in the embedded configuration
with no external PWV data. -/
def pwvInterceptSliceW (C : ChisqCtx) (atm : ExpAtm) (slopes : ℕ → ℕ → ℚ) (o : ChisqOpts) (n : ℕ) : ℚ :=
  nightFamilySlice C atm slopes o (dLdPWVW C atm slopes)
    (fun _ _ => 0) ((C.units o.fitterUnits).pwvUnit) n

def pwvPerSlopeFacW (C : ChisqCtx) (atm : ExpAtm) (slopes : ℕ → ℕ → ℚ) (i : ℕ) : ℚ :=
  C.expDeltaUT ((C.obs i).expIdx) * atm.pwv ((C.obs i).expIdx) * dLdPWVW C atm slopes i

/-- Per-night PWV nightly-slope gradient slice. -/
def pwvPerSlopeSliceW (C : ChisqCtx) (atm : ExpAtm) (slopes : ℕ → ℕ → ℚ) (o : ChisqOpts) (n : ℕ) : ℚ :=
  nightFamilySlice C atm slopes o (pwvPerSlopeFacW C atm slopes)
    (nightCellMW C o (pwvPerSlopeFacW C atm slopes)) ((C.units o.fitterUnits).pwvPerSlopeUnit) n

/-- Per-night lnTau nightly-intercept gradient slice.  The subtracted
array in the source is magdLdTauOffset, which belongs to the
external-tau offset family and stays identically zero in the embedded
configuration with no external tau data. -/
def lnTauInterceptSliceW (C : ChisqCtx) (atm : ExpAtm) (slopes : ℕ → ℕ → ℚ) (o : ChisqOpts) (n : ℕ) : ℚ :=
  nightFamilySlice C atm slopes o (dLdTauW C atm slopes)
    (fun _ _ => 0) ((C.units o.fitterUnits).lnTauUnit) n

def lnTauSlopeFacW (C : ChisqCtx) (atm : ExpAtm) (slopes : ℕ → ℕ → ℚ) (i : ℕ) : ℚ :=
  C.expDeltaUT ((C.obs i).expIdx) * dLdTauW C atm slopes i

/-- Per-night lnTau nightly-slope gradient slice. -/
def lnTauSlopeSliceW (C : ChisqCtx) (atm : ExpAtm) (slopes : ℕ → ℕ → ℚ) (o : ChisqOpts) (n : ℕ) : ℚ :=
  nightFamilySlice C atm slopes o (lnTauSlopeFacW C atm slopes)
    (nightCellMW C o (lnTauSlopeFacW C atm slopes)) ((C.units o.fitterUnits).lnTauSlopeUnit) n

/-- Per-wash QE-system intercept gradient slice (unit factor per
observation). -/
def washInterceptSliceW (C : ChisqCtx) (atm : ExpAtm) (slopes : ℕ → ℕ → ℚ) (o : ChisqOpts) (w : ℕ) : ℚ :=
  washFamilySlice C atm slopes o (fun _ => 1)
    (washCellMW C o (fun _ => 1)) ((C.units o.fitterUnits).qeSysUnit) w

def washSlopeFacW (C : ChisqCtx) (i : ℕ) : ℚ :=
  C.expMJD ((C.obs i).expIdx) - C.washMJD (obsWash C i)

/-- Per-wash QE-system slope gradient slice (MJD offset factor). -/
def washSlopeSliceW (C : ChisqCtx) (atm : ExpAtm) (slopes : ℕ → ℕ → ℚ) (o : ChisqOpts) (w : ℕ) : ℚ :=
  washFamilySlice C atm slopes o (washSlopeFacW C)
    (washCellMW C o (washSlopeFacW C)) ((C.units o.fitterUnits).qeSysSlopeUnit) w

/-- Modelled from the spec: the parameter container's slice offsets
partition the flat fit vector without gaps or overlaps; the embedding
fixes the packed order O3, alpha, PWV intercept, PWV slope, lnTau
intercept, lnTau slope, wash intercept, wash slope. -/
def nFitParsOf (C : ChisqCtx) : ℕ := 6 * C.nNights + 2 * C.nWash

/-- Accumulated gradient vector (the first nFitPars partial sums). -/
def gradAt (C : ChisqCtx) (atm : ExpAtm) (slopes : ℕ → ℕ → ℚ) (o : ChisqOpts) (idx : ℕ) : ℚ :=
  let N := C.nNights
  if idx < N then o3SliceW C atm slopes o idx
  else if idx < 2 * N then alphaSliceW C atm slopes o (idx - N)
  else if idx < 3 * N then pwvInterceptSliceW C atm slopes o (idx - 2 * N)
  else if idx < 4 * N then pwvPerSlopeSliceW C atm slopes o (idx - 3 * N)
  else if idx < 5 * N then lnTauInterceptSliceW C atm slopes o (idx - 4 * N)
  else if idx < 6 * N then lnTauSlopeSliceW C atm slopes o (idx - 5 * N)
  else if idx < 6 * N + C.nWash then washInterceptSliceW C atm slopes o (idx - 6 * N)
  else if idx < 6 * N + 2 * C.nWash then washSlopeSliceW C atm slopes o (idx - (6 * N + C.nWash))
  else 0

/-- Touch-counter vector (the second nFitPars partial sums; integral
counter values): a family touches a per-night parameter when the night
receives a fit observation, except the PWV nightly-slope family whose
source increments only the first slot of its slice regardless of
night. -/
def touchAt (C : ChisqCtx) (o : ChisqOpts) (idx : ℕ) : ℕ :=
  let N := C.nNights
  if idx < N then (if uNightBW C o idx then 1 else 0)
  else if idx < 2 * N then (if uNightBW C o (idx - N) then 1 else 0)
  else if idx < 3 * N then (if uNightBW C o (idx - 2 * N) then 1 else 0)
  else if idx < 4 * N then (if idx - 3 * N == 0 then 1 else 0)
  else if idx < 5 * N then (if uNightBW C o (idx - 4 * N) then 1 else 0)
  else if idx < 6 * N then (if uNightBW C o (idx - 5 * N) then 1 else 0)
  else if idx < 6 * N + C.nWash then (if uWashBW C o (idx - 6 * N) then 1 else 0)
  else if idx < 6 * N + 2 * C.nWash then (if uWashBW C o (idx - (6 * N + C.nWash)) then 1 else 0)
  else 0

/-- Number of parameters with a nonzero touch counter. -/
def touchedCountOf (C : ChisqCtx) (o : ChisqOpts) : ℕ :=
  ((List.range (nFitParsOf C)).filter (fun i => decide (0 < touchAt C o i))).length

/-- Active-parameter count used for the DOF: the touched count when
derivatives are computed, otherwise the persisted count in the state. -/
def activeParsOf (C : ChisqCtx) (S : ChisqState) (o : ChisqOpts) : ℕ :=
  if o.computeDerivatives then touchedCountOf C o else S.nActualFitPars

/-- Degrees of freedom: total fit observations minus the
active-parameter count (an integral quantity, held as a float by the
source). -/
def dofOf (C : ChisqCtx) (S : ChisqState) (o : ChisqOpts) : ℤ :=
  (nFitObsOf C o : ℤ) - (activeParsOf C S o : ℤ)

/-- SED slopes used for the evaluation: recomputed by the external
star-store routine from the temporary non-chromatic means when
computeSEDSlopes is set, otherwise the slopes already in the state. -/
def slopesAfterOf (C : ChisqCtx) (S : ChisqState) (p : List ℚ) (o : ChisqOpts) : ℕ → ℕ → ℚ :=
  if o.computeSEDSlopes then C.sedCompute (meanNoChromW C (atmOf C p o) o) (meanErrW C o)
  else S.objSEDSlope

/-- Objective returned on the non-allExposures path: total chi-squared
divided by the degrees of freedom. -/
def chisqValOf (C : ChisqCtx) (S : ChisqState) (p : List ℚ) (o : ChisqOpts) : ℚ :=
  chisqTotalOf C (atmOf C p o) (slopesAfterOf C S p o) o / (dofOf C S o : ℚ)

/-- Gradient returned on the non-allExposures path: the accumulated
per-parameter derivative divided by the degrees of freedom. -/
def gradValOf (C : ChisqCtx) (S : ChisqState) (p : List ℚ) (o : ChisqOpts) : Option (ℕ → ℚ) :=
  if o.computeDerivatives then
    some (fun i => gradAt C (atmOf C p o) (slopesAfterOf C S p o) o i / (dofOf C S o : ℚ))
  else none

/-- State after a successful non-allExposures call: mean arrays fully
overwritten (reset to 99 then filled where weight is positive),
standardized magnitudes written for eligible observations, objective
appended to the history. -/
def postStateOf (C : ChisqCtx) (S : ChisqState) (p : List ℚ) (o : ChisqOpts) : ChisqState :=
  { objMagStdMean := meanStdW C (atmOf C p o) (slopesAfterOf C S p o) o
  , objMagStdMeanNoChrom := meanNoChromW C (atmOf C p o) o
  , objMagStdMeanErr := meanErrW C o
  , objSEDSlope := slopesAfterOf C S p o
  , obsMagStd := fun i =>
      if i ∈ goodObsOf C o then obsMagStdNewW C (atmOf C p o) (slopesAfterOf C S p o) i
      else S.obsMagStd i
  , nActualFitPars := activeParsOf C S o
  , fitChisqs := S.fitChisqs ++ [chisqValOf C S p o]
  , magStdComputed := true
  , allMagStdComputed := S.allMagStdComputed }

/-- State after a successful allExposures call: only the per-observation
standardized magnitudes and the computed flags change. -/
def allExpStateOf (C : ChisqCtx) (S : ChisqState) (p : List ℚ) (o : ChisqOpts) : ChisqState :=
  { S with
    obsMagStd := fun i =>
      if i ∈ goodObsOf C o then obsMagStdNewW C (atmOf C p o) S.objSEDSlope i
      else S.obsMagStd i
  , magStdComputed := true
  , allMagStdComputed := true }

/-- FgcmChisq.__call__: option validation, parameter reload, good-star
selection, pre-match sanity check, then either the allExposures
standardized-magnitude pass (returning the last recorded objective) or
the full chi-squared/gradient evaluation with the DOF guard. -/
def fgcmChisqCall (C : ChisqCtx) (S : ChisqState) (p : List ℚ) (o : ChisqOpts) :
    Except CallErr (ChisqState × ℚ × Option (ℕ → ℚ)) :=
  if o.allExposures ∧ (o.computeDerivatives ∨ o.computeSEDSlopes) then
    Except.error CallErr.badOptionCombo
  else if goodStarsOf C o = [] then Except.error CallErr.noGoodStars
  else if firstStarUnmatched C o then Except.error CallErr.matchSanity
  else if o.allExposures then
    Except.ok (allExpStateOf C S p o, (S.fitChisqs.getLast?).getD 0, none)
  else if dofOf C S o ≤ 0 then Except.error CallErr.nonPositiveDOF
  else Except.ok (postStateOf C S p o, chisqValOf C S p o, gradValOf C S p o)

def exceptOk {α : Type} (x : Except CallErr α) : Bool :=
  match x with
  | Except.ok _ => true
  | Except.error _ => false

/-- Whether the call completes without an explicit error. -/
def callOk (C : ChisqCtx) (S : ChisqState) (p : List ℚ) (o : ChisqOpts) : Bool :=
  exceptOk (fgcmChisqCall C S p o)

/-- State after the call, with the pre-call state kept on error. -/
def callStateD (C : ChisqCtx) (S : ChisqState) (p : List ℚ) (o : ChisqOpts) : ChisqState :=
  match fgcmChisqCall C S p o with
  | Except.ok r => r.1
  | Except.error _ => S

/-- Objective returned by the call, 0 on error. -/
def callChisqD (C : ChisqCtx) (S : ChisqState) (p : List ℚ) (o : ChisqOpts) : ℚ :=
  match fgcmChisqCall C S p o with
  | Except.ok r => r.2.1
  | Except.error _ => 0

/-- Gradient returned by the call, none on error. -/
def callGradD (C : ChisqCtx) (S : ChisqState) (p : List ℚ) (o : ChisqOpts) : Option (ℕ → ℚ) :=
  match fgcmChisqCall C S p o with
  | Except.ok r => r.2.2
  | Except.error _ => none

/-- Two successive calls with the same parameter vector and options:
the pair of returned objectives when both succeed. -/
def callTwice (C : ChisqCtx) (S : ChisqState) (p : List ℚ) (o : ChisqOpts) : Option (ℚ × ℚ) :=
  match fgcmChisqCall C S p o with
  | Except.error _ => none
  | Except.ok r =>
    match fgcmChisqCall C r.1 p o with
    | Except.error _ => none
    | Except.ok r2 => some (r.2.1, r2.2.1)

/-- Spec-side definition, following the specification's words for the
gradient chain rule: the per-object weighted mean of the per-observation
O3 partial derivative, over the object's fit-band observations in the
band. -/
def specPerObjMeanO3 (C : ChisqCtx) (atm : ExpAtm) (slopes : ℕ → ℕ → ℚ) (o : ChisqOpts)
    (ob b : ℕ) : ℚ :=
  let objObs := (fitObsOf C o).filter (fun i => ((C.obs i).objIdx == ob) && ((C.obs i).bandIdx == b))
  ((objObs.map (fun i => dLdO3W C atm slopes i * obsWgt C i)).sum) /
    ((objObs.map (fun i => obsWgt C i)).sum)

/-- Spec-side definition, following the specification's words for the
claimed O3 gradient component for night n: 2/unit times the sum over
fit-band observations on that night of weight times delta times
(partial derivative minus its per-object weighted mean). -/
def specGradO3Claim (C : ChisqCtx) (atm : ExpAtm) (slopes : ℕ → ℕ → ℚ) (o : ChisqOpts)
    (n : ℕ) : ℚ :=
  (2 / (C.units o.fitterUnits).o3Unit) *
    ((nightObsW C o n).map (fun i =>
      obsWgt C i * deltaW C atm slopes o i *
        (dLdO3W C atm slopes i -
          specPerObjMeanO3 C atm slopes o ((C.obs i).objIdx) ((C.obs i).bandIdx)))).sum

/-- Closed form of the accumulated O3 gradient entry for night n, as the
source computes it. -/
def o3GradClosedForm (C : ChisqCtx) (atm : ExpAtm) (slopes : ℕ → ℕ → ℚ) (o : ChisqOpts)
    (n : ℕ) : ℚ :=
  let raw := ((nightObsW C o n).map (fun i =>
    deltaW C atm slopes o i * obsWgt C i *
      (dLdO3W C atm slopes i - nightCellMW C o (dLdO3W C atm slopes) n ((C.obs i).bandIdx)))).sum
  if uNightBW C o n then raw * (2 / (C.units o.fitterUnits).o3Unit) else raw

/-- Closed form of the accumulated lnTau-intercept gradient entry for
night n: the subtracted accumulator is the external-tau offset family's
array, identically zero in the embedded configuration, so no mean is
subtracted. -/
def lnTauIntGradClosedForm (C : ChisqCtx) (atm : ExpAtm) (slopes : ℕ → ℕ → ℚ) (o : ChisqOpts)
    (n : ℕ) : ℚ :=
  let raw := ((nightObsW C o n).map (fun i =>
    deltaW C atm slopes o i * obsWgt C i * (dLdTauW C atm slopes i - 0))).sum
  if uNightBW C o n then raw * (2 / (C.units o.fitterUnits).lnTauUnit) else raw

/-- Static context for the gray-residual engine: the star-store tables
together with the configuration thresholds it reads. -/
structure GrayCtx where
  nObj : ℕ
  nObs : ℕ
  nExp : ℕ
  nCCD : ℕ
  obs : ℕ → FgcmObs
  obsMagStd : ℕ → ℚ
  objMagStdMean : ℕ → ℕ → ℚ
  objMagStdMeanErr : ℕ → ℕ → ℚ
  objNGoodObs : ℕ → ℕ → ℕ
  objFlag : ℕ → ℕ
  requiredBands : List ℕ
  extraBands : List ℕ
  minObsPerBand : ℕ
  minStarPerCCD : ℕ
  maxCCDGrayErr : ℚ
  ccdGrayMaxStarErr : ℚ
  illegalValue : ℚ
  sqrtQ : ℚ → ℚ

/-- Good stars of the gray computation: enough good observations in
every required band, and flag clear. -/
def grayGoodStars (G : GrayCtx) : List ℕ :=
  (List.range G.nObj).filter (fun s =>
    (G.requiredBands.all (fun b => decide (G.minObsPerBand ≤ G.objNGoodObs s b))) &&
    (G.objFlag s == 0))

/-- Observations of good stars with the observation flag clear (no
exposure cut: gray is computed for all exposures). -/
def grayGoodObs0 (G : GrayCtx) : List ℕ :=
  (List.range G.nObs).filter (fun i =>
    (grayGoodStars G).contains ((G.obs i).objIdx) && ((G.obs i).flag == 0))

/-- Per-observation gray residual: object mean magnitude minus the
observation's standardized magnitude. -/
def eGray (G : GrayCtx) (i : ℕ) : ℚ :=
  G.objMagStdMean ((G.obs i).objIdx) ((G.obs i).bandIdx) - G.obsMagStd i

/-- Per-observation residual variance: the model-error variance alone
when onlyObsErr, otherwise that variance minus the object's
mean-magnitude variance. -/
def eGrayErr2 (G : GrayCtx) (onlyObsErr : Bool) (i : ℕ) : ℚ :=
  if onlyObsErr then ((G.obs i).magADUModelErr) ^ 2
  else ((G.obs i).magADUModelErr) ^ 2 -
    (G.objMagStdMeanErr ((G.obs i).objIdx) ((G.obs i).bandIdx)) ^ 2

/-- Observations surviving the upper-bound cut on the residual
variance. -/
def graySelObs (G : GrayCtx) (oe : Bool) : List ℕ :=
  (grayGoodObs0 G).filter (fun i => decide (eGrayErr2 G oe i < G.ccdGrayMaxStarErr))

/-- Observations entering the per-(exposure, CCD) aggregation: required
bands always, extra bands when the object has enough good observations
in that band. -/
def grayAggObs (G : GrayCtx) (oe : Bool) : List ℕ :=
  (graySelObs G oe).filter (fun i =>
    G.requiredBands.contains ((G.obs i).bandIdx) ||
    (G.extraBands.contains ((G.obs i).bandIdx) &&
      decide (G.minObsPerBand ≤ G.objNGoodObs ((G.obs i).objIdx) ((G.obs i).bandIdx))))

/-- Aggregated observations of one (exposure, CCD) cell. -/
def ccdCellObs (G : GrayCtx) (oe : Bool) (e c : ℕ) : List ℕ :=
  (grayAggObs G oe).filter (fun i => ((G.obs i).expIdx == e) && ((G.obs i).ccdIdx == c))

/-- Summed inverse residual variance of a cell. -/
def ccdGrayWtOf (G : GrayCtx) (oe : Bool) (e c : ℕ) : ℚ :=
  ((ccdCellObs G oe e c).map (fun i => 1 / eGrayErr2 G oe i)).sum

/-- Summed weighted residual of a cell. -/
def ccdGraySumE (G : GrayCtx) (oe : Bool) (e c : ℕ) : ℚ :=
  ((ccdCellObs G oe e c).map (fun i => eGray G i / eGrayErr2 G oe i)).sum

/-- Summed weighted squared residual of a cell. -/
def ccdGraySumE2 (G : GrayCtx) (oe : Bool) (e c : ℕ) : ℚ :=
  ((ccdCellObs G oe e c).map (fun i => (eGray G i) ^ 2 / eGrayErr2 G oe i)).sum

/-- Count of contributing observations of a cell (the source's
ccdNGoodStars counter, incremented once per aggregated observation). -/
def ccdNGoodStarsOf (G : GrayCtx) (oe : Bool) (e c : ℕ) : ℕ :=
  (ccdCellObs G oe e c).length

/-- Argument of the weighted-RMS square root: weighted mean of squares
minus square of the weighted mean. -/
def ccdRMSArg (G : GrayCtx) (oe : Bool) (e c : ℕ) : ℚ :=
  ccdGraySumE2 G oe e c / ccdGrayWtOf G oe e c - (ccdGraySumE G oe e c / ccdGrayWtOf G oe e c) ^ 2

/-- Source condition gd for a cell: more than 2 contributing stars,
positive summed weight, positive summed weighted square. -/
def ccdGdCell (G : GrayCtx) (oe : Bool) (e c : ℕ) : Bool :=
  decide (2 < ccdNGoodStarsOf G oe e c) && decide (0 < ccdGrayWtOf G oe e c) &&
    decide (0 < ccdGraySumE2 G oe e c)

/-- Source temporary tempRMS2: the RMS argument at gd cells, zero
elsewhere. -/
def ccdTempRMS2 (G : GrayCtx) (oe : Bool) (e c : ℕ) : ℚ :=
  if ccdGdCell G oe e c then ccdRMSArg G oe e c else 0

/-- Source condition bad for a cell. -/
def ccdBadCell (G : GrayCtx) (oe : Bool) (e c : ℕ) : Bool :=
  decide (ccdNGoodStarsOf G oe e c ≤ 2) || decide (ccdGrayWtOf G oe e c ≤ 0) ||
    decide (ccdTempRMS2 G oe e c ≤ 0)

/-- Stored CCD gray: the inverse-variance-weighted mean, or the illegal
sentinel. -/
def ccdGrayOut (G : GrayCtx) (oe : Bool) (e c : ℕ) : ℚ :=
  if ccdBadCell G oe e c then G.illegalValue
  else ccdGraySumE G oe e c / ccdGrayWtOf G oe e c

/-- Stored CCD gray RMS: sqrt of tempRMS2, or the illegal sentinel. -/
def ccdGrayRMSOut (G : GrayCtx) (oe : Bool) (e c : ℕ) : ℚ :=
  if ccdBadCell G oe e c then G.illegalValue else G.sqrtQ (ccdTempRMS2 G oe e c)

/-- Stored CCD gray error: sqrt of the reciprocal summed weight, or the
illegal sentinel. -/
def ccdGrayErrOut (G : GrayCtx) (oe : Bool) (e c : ℕ) : ℚ :=
  if ccdBadCell G oe e c then G.illegalValue else G.sqrtQ (1 / ccdGrayWtOf G oe e c)

/-- Gate for a CCD cell to enter the exposure aggregation: enough stars
and a stored gray error strictly between 0 and the maximum. -/
def goodCCDCellB (G : GrayCtx) (oe : Bool) (e c : ℕ) : Bool :=
  decide (G.minStarPerCCD ≤ ccdNGoodStarsOf G oe e c) &&
    decide (0 < ccdGrayErrOut G oe e c) &&
    decide (ccdGrayErrOut G oe e c < G.maxCCDGrayErr)

/-- Contributing CCD cells of an exposure. -/
def expGoodCCDList (G : GrayCtx) (oe : Bool) (e : ℕ) : List ℕ :=
  (List.range G.nCCD).filter (fun c => goodCCDCellB G oe e c)

def expNGoodCCDsOf (G : GrayCtx) (oe : Bool) (e : ℕ) : ℕ :=
  (expGoodCCDList G oe e).length

def expGrayWtOf (G : GrayCtx) (oe : Bool) (e : ℕ) : ℚ :=
  ((expGoodCCDList G oe e).map (fun c => 1 / (ccdGrayErrOut G oe e c) ^ 2)).sum

def expGraySumOf (G : GrayCtx) (oe : Bool) (e : ℕ) : ℚ :=
  ((expGoodCCDList G oe e).map (fun c => ccdGrayOut G oe e c / (ccdGrayErrOut G oe e c) ^ 2)).sum

def expGraySum2Of (G : GrayCtx) (oe : Bool) (e : ℕ) : ℚ :=
  ((expGoodCCDList G oe e).map (fun c => (ccdGrayOut G oe e c) ^ 2 / (ccdGrayErrOut G oe e c) ^ 2)).sum

/-- Stored exposure gray: weighted mean of the contributing CCD grays,
or the illegal sentinel for fewer than 3 contributing CCDs. -/
def expGrayOut (G : GrayCtx) (oe : Bool) (e : ℕ) : ℚ :=
  if 2 < expNGoodCCDsOf G oe e then expGraySumOf G oe e / expGrayWtOf G oe e
  else G.illegalValue

/-- Stored exposure gray RMS. -/
def expGrayRMSOut (G : GrayCtx) (oe : Bool) (e : ℕ) : ℚ :=
  if 2 < expNGoodCCDsOf G oe e then
    G.sqrtQ (expGraySum2Of G oe e / expGrayWtOf G oe e - (expGraySumOf G oe e / expGrayWtOf G oe e) ^ 2)
  else G.illegalValue

/-- Stored exposure gray error. -/
def expGrayErrOut (G : GrayCtx) (oe : Bool) (e : ℕ) : ℚ :=
  if 2 < expNGoodCCDsOf G oe e then G.sqrtQ (1 / expGrayWtOf G oe e)
  else G.illegalValue

/-- Median of a rational list, as np.median computes it: middle element
of the sorted list, or the average of the two middle elements. -/
def medianQ (l : List ℚ) : ℚ :=
  let s := List.insertionSort (fun a b : ℚ => a ≤ b) l
  if s.length = 0 then 0
  else if s.length % 2 = 1 then s.getD (s.length / 2) 0
  else (s.getD (s.length / 2 - 1) 0 + s.getD (s.length / 2) 0) / 2

/-- Repeatability estimate for one band and color cut of
FgcmSigFgcm.computeSigFgcm.  The Gaussian-fitter output is carried as an
Option: none models a failed fit or a non-finite fitted width (float
non-finiteness has no rational counterpart), some w the fitted total
width.  The fallbacks 0.05 and 0.001 and the subtraction of the median
residual variance follow the source. -/
def computeSigFgcmBand (sqrtQ : ℚ → ℚ) (coeff2 : Option ℚ) (err2s : List ℚ) : ℚ :=
  match coeff2 with
  | none => 5 / 100
  | some w =>
    if medianQ err2s > w ^ 2 then 1 / 1000
    else sqrtQ (w ^ 2 - medianQ err2s)

/-- Constant LUT evaluator used by concrete evaluation fixtures. -/
def lutConstFn (v : ℚ) : LutFn := fun _ _ _ _ _ _ _ _ => v

/-- Constant LUT I1-derivative evaluator for fixtures. -/
def lutConstFnI1 (v : ℚ) : LutFnI1 := fun _ _ _ _ _ _ _ _ _ => v

/-- Fixture LUT with unit integrals and unit base derivatives. -/
def lutOnes : FgcmLUT :=
  { computeI0 := lutConstFn 1, computeI1 := lutConstFn 1
  , dLdPWV := lutConstFn 1, dLdO3 := lutConstFn 1
  , dLdTau := lutConstFn 1, dLdAlpha := lutConstFn 1
  , hasI1Derivatives := false
  , dLdPWVI1 := lutConstFnI1 0, dLdO3I1 := lutConstFnI1 0
  , dLdTauI1 := lutConstFnI1 0, dLdAlphaI1 := lutConstFnI1 0 }

/-- Fixture unit dictionary with every unit factor equal to 1. -/
def unitsOne : UnitDict := ⟨1, 1, 1, 1, 1, 1, 1, 1⟩

/-- Fixture reloaded atmosphere with every per-exposure value 0. -/
def atmZeroQ : ExpAtm :=
  ⟨fun _ => 0, fun _ => 0, fun _ => 0, fun _ => 0, fun _ => 0, fun _ => 0⟩

/-- Fixture observation row: object, exposure, band, LUT filter, and raw
magnitude, with unit model error, CCD 0 and clear flag. -/
def mkObs (ob e b f : ℕ) (m : ℚ) : FgcmObs :=
  { objIdx := ob, expIdx := e, bandIdx := b, lutFilterIdx := f, ccdIdx := 0
  , secZenith := 0, magADU := m, magADUModelErr := 1, flag := 0 }

/-- Fixture chi-squared context: one object, ten fit-band observations
of it on a single night and wash interval, with trivial throughput so
the standardized magnitude equals the raw magnitude. -/
def ctxW1 : ChisqCtx :=
  { nObj := 1, nObs := 10, nNights := 1, nWash := 1
  , obs := fun i => mkObs 0 0 0 0 (i : ℚ)
  , objFlag := fun _ => 0, expFlag := fun _ => 0
  , expNightIndex := fun _ => 0, expWashIndex := fun _ => 0
  , expDeltaUT := fun _ => 0, expMJD := fun _ => 0, washMJD := fun _ => 0
  , fitBands := [0], I10StdBand := fun _ => 1
  , noChromaticCorrections := false, lut := lutOnes
  , reload := fun _ _ => atmZeroQ, units := fun _ => unitsOne
  , sedCompute := fun _ _ => fun _ _ => 0
  , log10 := fun _ => 0, sqrtQ := fun _ => 0 }

/-- Fixture state with reset mean arrays, zero slopes and an empty
objective history. -/
def stateW1 : ChisqState :=
  { objMagStdMean := fun _ _ => 99, objMagStdMeanNoChrom := fun _ _ => 99
  , objMagStdMeanErr := fun _ _ => 99, objSEDSlope := fun _ _ => 0
  , obsMagStd := fun _ => 0, nActualFitPars := 8, fitChisqs := []
  , magStdComputed := false, allMagStdComputed := false }

/-- Options of a derivative evaluation in fitter units off. -/
def optsW1 : ChisqOpts :=
  { fitterUnits := false, computeDerivatives := true, computeSEDSlopes := false
  , allExposures := false, includeReserve := false }

/-- Fixture LUT whose O3 derivative is 1 for filter 0 and 0 otherwise. -/
def lutW2 : FgcmLUT :=
  { lutOnes with dLdO3 := fun f _ _ _ _ _ _ _ => if f = 0 then 1 else 0 }

/-- Fixture for the O3 gradient comparison: one object with two
observations of the same band on two different nights, with O3
derivative 1 on the first night and 0 on the second. -/
def ctxW2 : ChisqCtx :=
  { nObj := 1, nObs := 2, nNights := 2, nWash := 1
  , obs := fun i => if i = 0 then mkObs 0 0 0 0 0 else mkObs 0 1 0 1 1
  , objFlag := fun _ => 0, expFlag := fun _ => 0
  , expNightIndex := fun e => e, expWashIndex := fun _ => 0
  , expDeltaUT := fun _ => 0, expMJD := fun _ => 0, washMJD := fun _ => 0
  , fitBands := [0], I10StdBand := fun _ => 1
  , noChromaticCorrections := false, lut := lutW2
  , reload := fun _ _ => atmZeroQ, units := fun _ => unitsOne
  , sedCompute := fun _ _ => fun _ _ => 0
  , log10 := fun _ => 0, sqrtQ := fun _ => 0 }

/-- Zero SED-slope array used with the gradient fixtures. -/
def slopesZero : ℕ → ℕ → ℚ := fun _ _ => 0

/-- Fixture for the error-condition comparison: two good stars, the
first of which has no observation row, while the second has five
eligible fit-band observations. -/
def ctxW3 : ChisqCtx :=
  { nObj := 2, nObs := 5, nNights := 1, nWash := 1
  , obs := fun i => mkObs 1 0 0 0 (i : ℚ)
  , objFlag := fun _ => 0, expFlag := fun _ => 0
  , expNightIndex := fun _ => 0, expWashIndex := fun _ => 0
  , expDeltaUT := fun _ => 0, expMJD := fun _ => 0, washMJD := fun _ => 0
  , fitBands := [0], I10StdBand := fun _ => 1
  , noChromaticCorrections := false, lut := lutOnes
  , reload := fun _ _ => atmZeroQ, units := fun _ => unitsOne
  , sedCompute := fun _ _ => fun _ _ => 0
  , log10 := fun _ => 0, sqrtQ := fun _ => 0 }

/-- State with a persisted active-parameter count of 1. -/
def stateW3 : ChisqState := { stateW1 with nActualFitPars := 1 }

/-- Options of a plain evaluation with no derivatives. -/
def optsPlain : ChisqOpts :=
  { fitterUnits := false, computeDerivatives := false, computeSEDSlopes := false
  , allExposures := false, includeReserve := false }

/-- Fixture for the repeated-evaluation check: one object with two
eligible fit-band observations. -/
def ctxW8 : ChisqCtx :=
  { ctxW3 with nObj := 1, nObs := 2, obs := fun i => mkObs 0 0 0 0 (i : ℚ) }

/-- Fixture for the allExposures checks: one object with one
observation, and a nonempty objective history. -/
def ctxW9 : ChisqCtx :=
  { ctxW3 with nObj := 1, nObs := 1, obs := fun _ => mkObs 0 0 0 0 0 }

/-- State with history [7] and persisted active-parameter count 0. -/
def stateW9 : ChisqState := { stateW1 with nActualFitPars := 0, fitChisqs := [7] }

/-- Options of an allExposures inference-only pass. -/
def optsAllExp : ChisqOpts :=
  { fitterUnits := false, computeDerivatives := false, computeSEDSlopes := false
  , allExposures := true, includeReserve := false }

/-- Gray fixture exhibiting a negative decorrelated variance: one
observation whose mean-magnitude error exceeds its model error. -/
def ctxG4 : GrayCtx :=
  { nObj := 1, nObs := 1, nExp := 1, nCCD := 1
  , obs := fun _ => mkObs 0 0 0 0 0
  , obsMagStd := fun _ => 0
  , objMagStdMean := fun _ _ => 0
  , objMagStdMeanErr := fun _ _ => 2
  , objNGoodObs := fun _ _ => 1
  , objFlag := fun _ => 0
  , requiredBands := [0], extraBands := []
  , minObsPerBand := 1, minStarPerCCD := 1
  , maxCCDGrayErr := 10, ccdGrayMaxStarErr := 1
  , illegalValue := -9999, sqrtQ := fun _ => 0 }

/-- Gray fixture with one CCD cell holding three stars with residuals
0, 1, 2 at unit variance. -/
def ctxG5 : GrayCtx :=
  { nObj := 3, nObs := 3, nExp := 2, nCCD := 1
  , obs := fun i => mkObs i 0 0 0 0
  , obsMagStd := fun _ => 0
  , objMagStdMean := fun ob _ => (ob : ℚ)
  , objMagStdMeanErr := fun _ _ => 0
  , objNGoodObs := fun _ _ => 1
  , objFlag := fun _ => 0
  , requiredBands := [0], extraBands := []
  , minObsPerBand := 1, minStarPerCCD := 1
  , maxCCDGrayErr := 10, ccdGrayMaxStarErr := 2
  , illegalValue := -9999, sqrtQ := fun _ => 0 }

lemma fgcmChisqCall_ok_of (C : ChisqCtx) (S : ChisqState) (p : List ℚ) (o : ChisqOpts)
    (hAll : o.allExposures = false) (hOk : callOk C S p o = true) :
    fgcmChisqCall C S p o =
      Except.ok (postStateOf C S p o, chisqValOf C S p o, gradValOf C S p o) := by
  unfold callOk at hOk
  unfold fgcmChisqCall at hOk ⊢
  split_ifs at hOk ⊢ with h1 h2 h3 h4 h5
  all_goals simp_all [exceptOk]

lemma callOk_true_iff (C : ChisqCtx) (S : ChisqState) (p : List ℚ) (o : ChisqOpts) :
    callOk C S p o = true ↔
      ¬(o.allExposures = true ∧ (o.computeDerivatives = true ∨ o.computeSEDSlopes = true)) ∧
      ¬(goodStarsOf C o = []) ∧
      ¬ firstStarUnmatched C o ∧
      (o.allExposures = true ∨ ¬(dofOf C S o ≤ 0)) := by
  unfold callOk fgcmChisqCall
  split_ifs with h1 h2 h3 h4 h5
  all_goals simp_all [exceptOk]

lemma activePars_postState (C : ChisqCtx) (S : ChisqState) (p : List ℚ) (o : ChisqOpts) :
    activeParsOf C (postStateOf C S p o) o = activeParsOf C S o := by
  by_cases hd : o.computeDerivatives = true
  · simp [activeParsOf, hd]
  · simp [activeParsOf, hd, postStateOf]

lemma dofOf_postState (C : ChisqCtx) (S : ChisqState) (p : List ℚ) (o : ChisqOpts) :
    dofOf C (postStateOf C S p o) o = dofOf C S o := by
  simp [dofOf, activePars_postState]

lemma slopesAfter_postState (C : ChisqCtx) (S : ChisqState) (p : List ℚ) (o : ChisqOpts)
    (hSed : o.computeSEDSlopes = false) :
    slopesAfterOf C (postStateOf C S p o) p o = slopesAfterOf C S p o := by
  simp [slopesAfterOf, hSed, postStateOf]

lemma chisqVal_postState (C : ChisqCtx) (S : ChisqState) (p : List ℚ) (o : ChisqOpts)
    (hSed : o.computeSEDSlopes = false) :
    chisqValOf C (postStateOf C S p o) p o = chisqValOf C S p o := by
  simp [chisqValOf, slopesAfter_postState C S p o hSed, dofOf_postState]

/-- C1: for every call with allExposures = False that completes without
error, the returned objective equals the total accumulated weighted
chi-squared (sum over fit-band observations of weight times squared
residual) divided by DOF, where DOF is the total number of fit-band
observations minus the active-parameter count; with
computeDerivatives = True the active-parameter count is the number of
parameters with a nonzero touch counter and the returned gradient is the
summed per-parameter derivative divided by the same DOF. -/
theorem fgcmChisq_call_objective_gradient (C : ChisqCtx) (S : ChisqState) (p : List ℚ)
    (o : ChisqOpts) (hAll : o.allExposures = false) (hOk : callOk C S p o = true) :
    callChisqD C S p o =
      chisqTotalOf C (atmOf C p o) (slopesAfterOf C S p o) o / (dofOf C S o : ℚ)
    ∧ dofOf C S o = (nFitObsOf C o : ℤ) - (activeParsOf C S o : ℤ)
    ∧ (o.computeDerivatives = true →
        activeParsOf C S o = touchedCountOf C o ∧
        callGradD C S p o =
          some (fun i =>
            gradAt C (atmOf C p o) (slopesAfterOf C S p o) o i / (dofOf C S o : ℚ))) := by
  have hEq := fgcmChisqCall_ok_of C S p o hAll hOk
  refine ⟨by simp [callChisqD, hEq, chisqValOf], rfl, fun hd => ?_⟩
  exact ⟨by simp [activeParsOf, hd], by simp [callGradD, hEq, gradValOf, hd]⟩

/-- Witness for C1 at a concrete derivative evaluation that succeeds. -/
theorem fgcmChisq_call_objective_gradient_witness :
    (optsW1.allExposures = false ∧ callOk ctxW1 stateW1 [] optsW1 = true)
    ∧ (callChisqD ctxW1 stateW1 [] optsW1 =
        chisqTotalOf ctxW1 (atmOf ctxW1 [] optsW1) (slopesAfterOf ctxW1 stateW1 [] optsW1) optsW1 /
          (dofOf ctxW1 stateW1 optsW1 : ℚ)
      ∧ dofOf ctxW1 stateW1 optsW1 =
          (nFitObsOf ctxW1 optsW1 : ℤ) - (activeParsOf ctxW1 stateW1 optsW1 : ℤ)
      ∧ (optsW1.computeDerivatives = true →
          activeParsOf ctxW1 stateW1 optsW1 = touchedCountOf ctxW1 optsW1 ∧
          callGradD ctxW1 stateW1 [] optsW1 =
            some (fun i =>
              gradAt ctxW1 (atmOf ctxW1 [] optsW1) (slopesAfterOf ctxW1 stateW1 [] optsW1) optsW1 i /
                (dofOf ctxW1 stateW1 optsW1 : ℚ)))) :=
  ⟨⟨rfl, by decide⟩, fgcmChisq_call_objective_gradient ctxW1 stateW1 [] optsW1 rfl (by decide)⟩

/-- C3 counterexample: a call that raises an explicit error although
none of the three claimed conditions holds, because the first selected
star has no observation row (the pre-match sanity check of the
source). -/
theorem fgcmChisq_error_outside_claimed_conditions :
    callOk ctxW3 stateW3 [] optsPlain = false
    ∧ ¬(optsPlain.allExposures = true ∧
        (optsPlain.computeDerivatives = true ∨ optsPlain.computeSEDSlopes = true))
    ∧ goodStarsOf ctxW3 optsPlain ≠ []
    ∧ 0 < dofOf ctxW3 stateW3 optsPlain := by decide

/-- C3 amended: the call raises an explicit error if and only if
allExposures is combined with computeDerivatives or computeSEDSlopes,
or no object passes the quality-flag selection, or the first selected
object has no observation row (pre-match sanity check), or the call is
not an allExposures pass and the computed degrees of freedom is
non-positive; no retry is attempted (the call is a pure function of its
inputs). -/
theorem fgcmChisq_call_error_iff (C : ChisqCtx) (S : ChisqState) (p : List ℚ) (o : ChisqOpts) :
    callOk C S p o = false ↔
      (o.allExposures = true ∧ (o.computeDerivatives = true ∨ o.computeSEDSlopes = true))
      ∨ goodStarsOf C o = []
      ∨ firstStarUnmatched C o
      ∨ (o.allExposures = false ∧ dofOf C S o ≤ 0) := by
  unfold callOk fgcmChisqCall
  split_ifs with h1 h2 h3 h4 h5
  all_goals simp_all [exceptOk]

/-- C9: an allExposures call leaves the per-object mean-magnitude
arrays, the SED slopes, the objective history and the persisted
active-parameter count unchanged, and writes standardized magnitudes
only at eligible observation rows. -/
theorem fgcmChisq_allExposures_frame (C : ChisqCtx) (S : ChisqState) (p : List ℚ)
    (o : ChisqOpts) (hAll : o.allExposures = true) :
    (callStateD C S p o).objMagStdMean = S.objMagStdMean
    ∧ (callStateD C S p o).objMagStdMeanNoChrom = S.objMagStdMeanNoChrom
    ∧ (callStateD C S p o).objMagStdMeanErr = S.objMagStdMeanErr
    ∧ (callStateD C S p o).objSEDSlope = S.objSEDSlope
    ∧ (callStateD C S p o).fitChisqs = S.fitChisqs
    ∧ (callStateD C S p o).nActualFitPars = S.nActualFitPars
    ∧ ∀ i, i ∉ goodObsOf C o → (callStateD C S p o).obsMagStd i = S.obsMagStd i := by
  unfold callStateD fgcmChisqCall
  split_ifs <;>
    first
      | exact ⟨rfl, rfl, rfl, rfl, rfl, rfl, fun i _ => rfl⟩
      | exact absurd hAll (by assumption)
      | (refine ⟨rfl, rfl, rfl, rfl, rfl, rfl, fun i hi => ?_⟩
         simp [allExpStateOf, hi])

/-- Witness for C9 at a concrete allExposures pass. -/
theorem fgcmChisq_allExposures_frame_witness :
    optsAllExp.allExposures = true
    ∧ (callStateD ctxW9 stateW9 [] optsAllExp).objMagStdMean = stateW9.objMagStdMean
    ∧ (callStateD ctxW9 stateW9 [] optsAllExp).objMagStdMeanNoChrom = stateW9.objMagStdMeanNoChrom
    ∧ (callStateD ctxW9 stateW9 [] optsAllExp).objMagStdMeanErr = stateW9.objMagStdMeanErr
    ∧ (callStateD ctxW9 stateW9 [] optsAllExp).objSEDSlope = stateW9.objSEDSlope
    ∧ (callStateD ctxW9 stateW9 [] optsAllExp).fitChisqs = stateW9.fitChisqs
    ∧ (callStateD ctxW9 stateW9 [] optsAllExp).nActualFitPars = stateW9.nActualFitPars
    ∧ (5 ∉ goodObsOf ctxW9 optsAllExp
       ∧ (callStateD ctxW9 stateW9 [] optsAllExp).obsMagStd 5 = stateW9.obsMagStd 5) := by
  have h := fgcmChisq_allExposures_frame ctxW9 stateW9 [] optsAllExp rfl
  exact ⟨rfl, h.1, h.2.1, h.2.2.1, h.2.2.2.1, h.2.2.2.2.1, h.2.2.2.2.2.1,
    by decide, h.2.2.2.2.2.2 5 (by decide)⟩

/-- C10: an allExposures call returns the last element of the running
chi-squared history (0 when the history is empty), and every successful
non-allExposures call appends its own objective to that history. -/
theorem fgcmChisq_allExposures_returns_history (C : ChisqCtx) (S : ChisqState) (p : List ℚ)
    (o : ChisqOpts) (hAll : o.allExposures = true) (hOk : callOk C S p o = true) :
    callChisqD C S p o = (S.fitChisqs.getLast?).getD 0
    ∧ ∀ o2 : ChisqOpts, o2.allExposures = false → callOk C S p o2 = true →
        (callStateD C S p o2).fitChisqs = S.fitChisqs ++ [callChisqD C S p o2] := by
  constructor
  · have hOk2 := hOk
    unfold callOk at hOk2
    unfold callChisqD
    unfold fgcmChisqCall at hOk2 ⊢
    split_ifs at hOk2 ⊢
    all_goals simp_all [exceptOk]
  · intro o2 h2 hOk2
    have hEq := fgcmChisqCall_ok_of C S p o2 h2 hOk2
    simp [callStateD, callChisqD, hEq, postStateOf]

/-- Witness for C10 at a concrete allExposures pass with history [7],
paired with a successful plain evaluation. -/
theorem fgcmChisq_allExposures_returns_history_witness :
    callOk ctxW9 stateW9 [] optsAllExp = true
    ∧ callChisqD ctxW9 stateW9 [] optsAllExp = (stateW9.fitChisqs.getLast?).getD 0
    ∧ (optsPlain.allExposures = false ∧ callOk ctxW9 stateW9 [] optsPlain = true
       ∧ (callStateD ctxW9 stateW9 [] optsPlain).fitChisqs =
           stateW9.fitChisqs ++ [callChisqD ctxW9 stateW9 [] optsPlain]) := by
  have h := fgcmChisq_allExposures_returns_history ctxW9 stateW9 [] optsAllExp rfl (by decide)
  exact ⟨by decide, h.1, rfl, by decide, h.2 optsPlain rfl (by decide)⟩

/-- C8: two successive calls with the identical parameter vector,
computeSEDSlopes = False and allExposures = False return identical
chi-squared values, because the per-object mean-magnitude arrays are
reset and fully overwritten on each call and every other input the
objective depends on is unchanged by the first call. -/
theorem fgcmChisq_repeat_same_chisq (C : ChisqCtx) (S : ChisqState) (p : List ℚ)
    (o : ChisqOpts) (hAll : o.allExposures = false) (hSed : o.computeSEDSlopes = false) :
    (callTwice C S p o).all (fun r => decide (r.1 = r.2)) = true := by
  unfold callTwice
  cases h1 : fgcmChisqCall C S p o with
  | error e => rfl
  | ok r =>
    have hOk : callOk C S p o = true := by simp [callOk, h1, exceptOk]
    have hEq := fgcmChisqCall_ok_of C S p o hAll hOk
    rw [h1] at hEq
    injection hEq with hr
    subst hr
    have hOk2 : callOk C (postStateOf C S p o) p o = true := by
      rw [callOk_true_iff] at hOk ⊢
      obtain ⟨a, b, c, d⟩ := hOk
      refine ⟨a, b, c, ?_⟩
      rcases d with hh | hh
      · exact Or.inl hh
      · exact Or.inr (by rw [dofOf_postState]; exact hh)
    have hEq2 := fgcmChisqCall_ok_of C (postStateOf C S p o) p o hAll hOk2
    simp [hEq2, chisqVal_postState C S p o hSed]

/-- Witness for C8 at a concrete repeated evaluation. -/
theorem fgcmChisq_repeat_same_chisq_witness :
    optsPlain.allExposures = false ∧ optsPlain.computeSEDSlopes = false ∧
    (callTwice ctxW8 stateW3 [] optsPlain).all (fun r => decide (r.1 = r.2)) = true :=
  ⟨rfl, rfl, fgcmChisq_repeat_same_chisq ctxW8 stateW3 [] optsPlain rfl rfl⟩

/-- C2 amended: the accumulated O3 gradient entry for a night equals the
scaled sum over that night's fit observations of weight times delta
times (derivative minus a per-night-per-band accumulator M), where M
sums derivative-times-weight over the night/band cell and is then
multiplied, once per observation in the cell, by that observation's
object-mean variance; for the lnTau-intercept family the subtracted
accumulator is the external-tau offset family's array, identically zero
with no external tau data, so no mean is subtracted at all. -/
theorem fgcmChisq_gradient_night_band_accumulator (C : ChisqCtx) (atm : ExpAtm)
    (slopes : ℕ → ℕ → ℚ) (o : ChisqOpts) (n : ℕ) (hn : n < C.nNights) :
    gradAt C atm slopes o n = o3GradClosedForm C atm slopes o n
    ∧ gradAt C atm slopes o (4 * C.nNights + n) = lnTauIntGradClosedForm C atm slopes o n := by
  constructor
  · have e1 : gradAt C atm slopes o n = o3SliceW C atm slopes o n := by
      unfold gradAt
      simp [hn]
    rw [e1]
    rfl
  · have h1 : ¬ (4 * C.nNights + n < C.nNights) := by omega
    have h2 : ¬ (4 * C.nNights + n < 2 * C.nNights) := by omega
    have h3 : ¬ (4 * C.nNights + n < 3 * C.nNights) := by omega
    have h4 : ¬ (4 * C.nNights + n < 4 * C.nNights) := by omega
    have h5 : 4 * C.nNights + n < 5 * C.nNights := by omega
    have h6 : 4 * C.nNights + n - 4 * C.nNights = n := by omega
    have e2 : gradAt C atm slopes o (4 * C.nNights + n) =
        lnTauInterceptSliceW C atm slopes o n := by
      unfold gradAt
      simp [h1, h2, h3, h4, h5, h6]
    rw [e2]
    exact rfl

/-- Witness for the amended C2 statement at a concrete two-night
fixture. -/
theorem fgcmChisq_gradient_night_band_accumulator_witness :
    0 < ctxW2.nNights
    ∧ (gradAt ctxW2 atmZeroQ slopesZero optsW1 0 =
         o3GradClosedForm ctxW2 atmZeroQ slopesZero optsW1 0
       ∧ gradAt ctxW2 atmZeroQ slopesZero optsW1 (4 * ctxW2.nNights + 0) =
           lnTauIntGradClosedForm ctxW2 atmZeroQ slopesZero optsW1 0) :=
  ⟨by decide,
   fgcmChisq_gradient_night_band_accumulator ctxW2 atmZeroQ slopesZero optsW1 0 (by decide)⟩

/-- C2 counterexample: at a concrete fixture (one object, two fit
observations of the same band on two nights, O3 derivative 1 on the
first night and 0 on the second) the accumulated O3 gradient entry for
the second night is 0, while the claim's formula with the per-object
weighted mean of the derivative gives -(1/2). -/
theorem fgcmChisq_o3_gradient_not_per_object_mean :
    gradAt ctxW2 (atmOf ctxW2 [] optsW1) slopesZero optsW1 1 = 0
    ∧ specGradO3Claim ctxW2 (atmOf ctxW2 [] optsW1) slopesZero optsW1 1 = -(1/2)
    ∧ gradAt ctxW2 (atmOf ctxW2 [] optsW1) slopesZero optsW1 1 ≠
        specGradO3Claim ctxW2 (atmOf ctxW2 [] optsW1) slopesZero optsW1 1 := by
  have hatm : atmOf ctxW2 [] optsW1 = atmZeroQ := rfl
  have hobs0 : ctxW2.obs 0 = mkObs 0 0 0 0 0 := rfl
  have hobs1 : ctxW2.obs 1 = mkObs 0 1 0 1 1 := rfl
  have hfit : fitObsOf ctxW2 optsW1 = [0, 1] := by decide
  have hnight : nightObsW ctxW2 optsW1 1 = [1] := by decide
  have hcell : cellObsW ctxW2 optsW1 0 0 = [0, 1] := by decide
  have hw0 : obsWgt ctxW2 0 = 1 := by
    rw [obsWgt, obsErr2W, hobs0]
    norm_num [mkObs]
  have hw1 : obsWgt ctxW2 1 = 1 := by
    rw [obsWgt, obsErr2W, hobs1]
    norm_num [mkObs]
  have hwt : wtSumW ctxW2 optsW1 0 0 = 2 := by
    rw [wtSumW, hcell]
    simp [hw0, hw1]
    norm_num
  have hmag0 : obsMagStdNewW ctxW2 atmZeroQ slopesZero 0 = 0 := by
    rw [obsMagStdNewW, obsMagW, deltaStdW]
    norm_num [ctxW2, hobs0, mkObs, atmZeroQ]
  have hmag1 : obsMagStdNewW ctxW2 atmZeroQ slopesZero 1 = 1 := by
    rw [obsMagStdNewW, obsMagW, deltaStdW]
    norm_num [ctxW2, hobs1, mkObs, atmZeroQ]
  have hmean : meanStdW ctxW2 atmZeroQ slopesZero optsW1 0 0 = 1/2 := by
    rw [meanStdW, if_pos (by rw [hwt]; norm_num), hcell, hwt]
    simp [hmag0, hmag1, hw0, hw1]
  have hd1 : deltaW ctxW2 atmZeroQ slopesZero optsW1 1 = 1/2 := by
    rw [deltaW]
    rw [show obsObj ctxW2 1 = 0 from rfl, show obsBand ctxW2 1 = 0 from rfl]
    rw [hmag1, hmean]
    norm_num
  have hdL0 : dLdO3W ctxW2 atmZeroQ slopesZero 0 = 1 := by
    rw [dLdO3W]
    norm_num [lutEval, ctxW2, hobs0, mkObs, lutW2, lutOnes, atmZeroQ]
  have hdL1 : dLdO3W ctxW2 atmZeroQ slopesZero 1 = 0 := by
    rw [dLdO3W]
    norm_num [lutEval, ctxW2, hobs1, mkObs, lutW2, lutOnes, atmZeroQ]
  have hM : nightCellMW ctxW2 optsW1 (dLdO3W ctxW2 atmZeroQ slopesZero) 1 0 = 0 := by
    have hc : (fitObsOf ctxW2 optsW1).filter
        (fun i => (obsNight ctxW2 i == 1) && ((ctxW2.obs i).bandIdx == 0)) = [1] := by decide
    rw [nightCellMW]
    simp only [hc]
    simp [hdL1, hw1]
  have hgrad : gradAt ctxW2 atmZeroQ slopesZero optsW1 1 = 0 := by
    have e1 : gradAt ctxW2 atmZeroQ slopesZero optsW1 1 =
        o3SliceW ctxW2 atmZeroQ slopesZero optsW1 1 := by
      unfold gradAt
      norm_num [ctxW2]
    have hu : uNightBW ctxW2 optsW1 1 = true := by decide
    have hb1 : (ctxW2.obs 1).bandIdx = 0 := rfl
    rw [e1, o3SliceW, nightFamilySlice]
    simp only [hnight]
    simp [hu, hb1, hd1, hdL1, hM, hw1]
  have hobjmean : specPerObjMeanO3 ctxW2 atmZeroQ slopesZero optsW1 0 0 = 1/2 := by
    have hc : (fitObsOf ctxW2 optsW1).filter
        (fun i => ((ctxW2.obs i).objIdx == 0) && ((ctxW2.obs i).bandIdx == 0)) = [0, 1] := by
      decide
    rw [specPerObjMeanO3]
    simp only [hc]
    simp [hdL0, hdL1, hw0, hw1]
    norm_num
  have hspec : specGradO3Claim ctxW2 atmZeroQ slopesZero optsW1 1 = -(1/2) := by
    have hb1 : (ctxW2.obs 1).bandIdx = 0 := rfl
    have ho1 : (ctxW2.obs 1).objIdx = 0 := rfl
    have hunit : (ctxW2.units optsW1.fitterUnits).o3Unit = 1 := rfl
    rw [specGradO3Claim]
    simp only [hnight]
    simp [hb1, ho1, hd1, hdL1, hw1, hobjmean, hunit]
  rw [hatm]
  refine ⟨hgrad, hspec, ?_⟩
  rw [hgrad, hspec]
  norm_num

/-- C4 amended: with onlyObsErr = False the per-observation residual
variance is the model-error variance minus the object's mean-magnitude
variance, and the only per-observation cut on it is the strict upper
bound at ccdGrayMaxStarErr; a non-positive residual variance passes that
cut and is not discarded. -/
theorem fgcmGray_residual_variance_cut (G : GrayCtx) :
    (∀ i, eGrayErr2 G false i =
      ((G.obs i).magADUModelErr) ^ 2 -
        (G.objMagStdMeanErr ((G.obs i).objIdx) ((G.obs i).bandIdx)) ^ 2)
    ∧ (∀ i, i ∈ graySelObs G false ↔
        i ∈ grayGoodObs0 G ∧ eGrayErr2 G false i < G.ccdGrayMaxStarErr) := by
  refine ⟨fun i => rfl, fun i => ?_⟩
  simp [graySelObs, List.mem_filter]

/-- C4 counterexample: an observation with negative decorrelated
variance passes the upper-bound cut and enters the per-(exposure, CCD)
aggregation, contributing a negative weight. -/
theorem fgcmGray_nonpositive_variance_kept :
    eGrayErr2 ctxG4 false 0 ≤ 0
    ∧ eGrayErr2 ctxG4 false 0 < ctxG4.ccdGrayMaxStarErr
    ∧ 0 ∈ grayAggObs ctxG4 false
    ∧ ccdGrayWtOf ctxG4 false 0 0 < 0 := by
  have he : eGrayErr2 ctxG4 false 0 = -3 := by
    rw [eGrayErr2]
    norm_num [ctxG4, mkObs]
  have hg0 : grayGoodObs0 ctxG4 = [0] := by decide
  have hp : (decide (eGrayErr2 ctxG4 false 0 < ctxG4.ccdGrayMaxStarErr)) = true := by
    rw [he]
    norm_num [ctxG4]
  have hsel : graySelObs ctxG4 false = [0] := by
    rw [graySelObs, hg0]
    simp [List.filter, hp]
  have hagg : grayAggObs ctxG4 false = [0] := by
    rw [grayAggObs, hsel]
    decide
  have hcell : ccdCellObs ctxG4 false 0 0 = [0] := by
    rw [ccdCellObs, hagg]
    decide
  have hwt : ccdGrayWtOf ctxG4 false 0 0 = -(1/3) := by
    rw [ccdGrayWtOf, hcell]
    simp [he]
    norm_num
  refine ⟨by rw [he]; norm_num, by rw [he]; norm_num [ctxG4], by rw [hagg]; simp, ?_⟩
  rw [hwt]
  norm_num

/-- C5: a CCD cell with more than 2 contributing stars, positive summed
weight and positive RMS argument stores the inverse-variance-weighted
mean, the error sqrt(1/sum of weights) and the RMS sqrt of the RMS
argument; a cell with at most 2 stars, non-positive weight or
non-positive RMS argument stores the illegal sentinel in gray, RMS and
error. -/
theorem fgcmGray_ccd_cell_stats (G : GrayCtx) (oe : Bool) (e c : ℕ) :
    (2 < ccdNGoodStarsOf G oe e c → 0 < ccdGrayWtOf G oe e c → 0 < ccdRMSArg G oe e c →
      ccdGrayOut G oe e c = ccdGraySumE G oe e c / ccdGrayWtOf G oe e c
      ∧ ccdGrayErrOut G oe e c = G.sqrtQ (1 / ccdGrayWtOf G oe e c)
      ∧ ccdGrayRMSOut G oe e c = G.sqrtQ (ccdRMSArg G oe e c))
    ∧ (ccdNGoodStarsOf G oe e c ≤ 2 ∨ ccdGrayWtOf G oe e c ≤ 0 ∨ ccdRMSArg G oe e c ≤ 0 →
      ccdGrayOut G oe e c = G.illegalValue ∧ ccdGrayRMSOut G oe e c = G.illegalValue
      ∧ ccdGrayErrOut G oe e c = G.illegalValue) := by
  constructor
  · intro h1 h2 h3
    have h3e : 0 < ccdGraySumE2 G oe e c / ccdGrayWtOf G oe e c -
        (ccdGraySumE G oe e c / ccdGrayWtOf G oe e c) ^ 2 := h3
    have hS2 : 0 < ccdGraySumE2 G oe e c := by
      have h4 : 0 < ccdGraySumE2 G oe e c / ccdGrayWtOf G oe e c := by
        nlinarith [sq_nonneg (ccdGraySumE G oe e c / ccdGrayWtOf G oe e c)]
      have h5 : ccdGraySumE2 G oe e c / ccdGrayWtOf G oe e c * ccdGrayWtOf G oe e c =
          ccdGraySumE2 G oe e c := div_mul_cancel₀ _ (ne_of_gt h2)
      nlinarith [mul_pos h4 h2]
    have hgd : ccdGdCell G oe e c = true := by
      simp [ccdGdCell, h1, h2, hS2]
    have htmp : ccdTempRMS2 G oe e c = ccdRMSArg G oe e c := by
      simp [ccdTempRMS2, hgd]
    have hbad : ccdBadCell G oe e c = false := by
      simp [ccdBadCell, htmp, not_le]
      exact ⟨⟨h1, h2⟩, h3⟩
    exact ⟨by simp [ccdGrayOut, hbad], by simp [ccdGrayErrOut, hbad],
      by simp [ccdGrayRMSOut, hbad, htmp]⟩
  · intro h
    have hbad : ccdBadCell G oe e c = true := by
      rcases h with h | h | h
      · simp [ccdBadCell, h]
      · simp [ccdBadCell, h]
      · cases hb : ccdGdCell G oe e c with
        | false => simp [ccdBadCell, ccdTempRMS2, hb]
        | true => simp [ccdBadCell, ccdTempRMS2, hb, h]
    exact ⟨by simp [ccdGrayOut, hbad], by simp [ccdGrayRMSOut, hbad],
      by simp [ccdGrayErrOut, hbad]⟩

/-- Witness for C5 at a concrete cell with three contributing stars, and
at an empty cell. -/
theorem fgcmGray_ccd_cell_stats_witness :
    (2 < ccdNGoodStarsOf ctxG5 false 0 0 ∧ 0 < ccdGrayWtOf ctxG5 false 0 0
     ∧ 0 < ccdRMSArg ctxG5 false 0 0
     ∧ ccdGrayOut ctxG5 false 0 0 = ccdGraySumE ctxG5 false 0 0 / ccdGrayWtOf ctxG5 false 0 0
     ∧ ccdGrayErrOut ctxG5 false 0 0 = ctxG5.sqrtQ (1 / ccdGrayWtOf ctxG5 false 0 0)
     ∧ ccdGrayRMSOut ctxG5 false 0 0 = ctxG5.sqrtQ (ccdRMSArg ctxG5 false 0 0))
    ∧ (ccdNGoodStarsOf ctxG5 false 1 0 ≤ 2
       ∧ ccdGrayOut ctxG5 false 1 0 = ctxG5.illegalValue
       ∧ ccdGrayRMSOut ctxG5 false 1 0 = ctxG5.illegalValue
       ∧ ccdGrayErrOut ctxG5 false 1 0 = ctxG5.illegalValue) := by
  have he : ∀ i, eGrayErr2 ctxG5 false i = 1 := by
    intro i
    rw [eGrayErr2]
    norm_num [ctxG5, mkObs]
  have hg0 : grayGoodObs0 ctxG5 = [0, 1, 2] := by decide
  have hp : ∀ i, (decide (eGrayErr2 ctxG5 false i < ctxG5.ccdGrayMaxStarErr)) = true := by
    intro i
    rw [he i]
    norm_num [ctxG5]
  have hsel : graySelObs ctxG5 false = [0, 1, 2] := by
    rw [graySelObs, hg0]
    simp [List.filter, hp]
  have hagg : grayAggObs ctxG5 false = [0, 1, 2] := by
    rw [grayAggObs, hsel]
    decide
  have hcell0 : ccdCellObs ctxG5 false 0 0 = [0, 1, 2] := by
    rw [ccdCellObs, hagg]
    decide
  have hcell1 : ccdCellObs ctxG5 false 1 0 = [] := by
    rw [ccdCellObs, hagg]
    decide
  have hE0 : eGray ctxG5 0 = 0 := by rw [eGray]; norm_num [ctxG5, mkObs]
  have hE1 : eGray ctxG5 1 = 1 := by rw [eGray]; norm_num [ctxG5, mkObs]
  have hE2 : eGray ctxG5 2 = 2 := by rw [eGray]; norm_num [ctxG5, mkObs]
  have hn0 : ccdNGoodStarsOf ctxG5 false 0 0 = 3 := by rw [ccdNGoodStarsOf, hcell0]; rfl
  have hn1 : ccdNGoodStarsOf ctxG5 false 1 0 = 0 := by rw [ccdNGoodStarsOf, hcell1]; rfl
  have hwt : ccdGrayWtOf ctxG5 false 0 0 = 3 := by
    rw [ccdGrayWtOf, hcell0]
    simp [he]
    norm_num
  have hsum : ccdGraySumE ctxG5 false 0 0 = 3 := by
    rw [ccdGraySumE, hcell0]
    simp [he, hE0, hE1, hE2]
    norm_num
  have hsum2 : ccdGraySumE2 ctxG5 false 0 0 = 5 := by
    rw [ccdGraySumE2, hcell0]
    simp [he, hE0, hE1, hE2]
    norm_num
  have hrms : ccdRMSArg ctxG5 false 0 0 = 2/3 := by
    rw [ccdRMSArg, hsum, hsum2, hwt]
    norm_num
  have ha : 2 < ccdNGoodStarsOf ctxG5 false 0 0 := by rw [hn0]; norm_num
  have hb : 0 < ccdGrayWtOf ctxG5 false 0 0 := by rw [hwt]; norm_num
  have hc : 0 < ccdRMSArg ctxG5 false 0 0 := by rw [hrms]; norm_num
  have hd : ccdNGoodStarsOf ctxG5 false 1 0 ≤ 2 := by rw [hn1]; norm_num
  exact ⟨⟨ha, hb, hc, (fgcmGray_ccd_cell_stats ctxG5 false 0 0).1 ha hb hc⟩,
    ⟨hd, (fgcmGray_ccd_cell_stats ctxG5 false 1 0).2 (Or.inl hd)⟩⟩

/-- C6: a CCD cell contributes to the exposure aggregation exactly when
it has at least minStarPerCCD stars and a stored gray error strictly
between 0 and maxCCDGrayErr; an exposure with fewer than 3 contributing
CCDs stores the illegal sentinel in exposure gray, RMS and error. -/
theorem fgcmGray_exp_aggregation_gating (G : GrayCtx) (oe : Bool) (e : ℕ) :
    (∀ c, c ∈ expGoodCCDList G oe e ↔
      (c < G.nCCD ∧ G.minStarPerCCD ≤ ccdNGoodStarsOf G oe e c
       ∧ 0 < ccdGrayErrOut G oe e c ∧ ccdGrayErrOut G oe e c < G.maxCCDGrayErr))
    ∧ (expNGoodCCDsOf G oe e < 3 →
        expGrayOut G oe e = G.illegalValue ∧ expGrayRMSOut G oe e = G.illegalValue
        ∧ expGrayErrOut G oe e = G.illegalValue) := by
  constructor
  · intro c
    simp [expGoodCCDList, goodCCDCellB, List.mem_filter, List.mem_range, and_assoc]
  · intro h
    have h2 : ¬ (2 < expNGoodCCDsOf G oe e) := by omega
    simp [expGrayOut, expGrayRMSOut, expGrayErrOut, h2]

/-- Witness for C6 at a concrete exposure with no contributing CCDs. -/
theorem fgcmGray_exp_aggregation_gating_witness :
    expNGoodCCDsOf ctxG5 false 0 < 3
    ∧ expGrayOut ctxG5 false 0 = ctxG5.illegalValue
    ∧ expGrayRMSOut ctxG5 false 0 = ctxG5.illegalValue
    ∧ expGrayErrOut ctxG5 false 0 = ctxG5.illegalValue := by
  have hgc : goodCCDCellB ctxG5 false 0 0 = false := by
    rw [goodCCDCellB, ccdGrayErrOut]
    cases hb : ccdBadCell ctxG5 false 0 0 with
    | false => simp [ctxG5]
    | true => norm_num [ctxG5]
  have hlist : expGoodCCDList ctxG5 false 0 = [] := by
    have hr : List.range ctxG5.nCCD = [0] := by decide
    rw [expGoodCCDList, hr]
    simp [List.filter, hgc]
  have hlt : expNGoodCCDsOf ctxG5 false 0 < 3 := by
    rw [expNGoodCCDsOf, hlist]
    norm_num
  exact ⟨hlt, (fgcmGray_exp_aggregation_gating ctxG5 false 0).2 hlt⟩

lemma medianQ_singleton (q : ℚ) : medianQ [q] = q := by
  simp [medianQ, List.insertionSort, List.orderedInsert]

/-- C7: for a band/color-cut evaluation, a failed or non-finite Gaussian
fit yields the fixed default 0.05; a median residual variance above the
squared fitted width yields the fixed default 0.001; otherwise the
intrinsic scatter is the square root of the squared width minus the
median residual variance, whose argument is non-negative, so no
negative-square-root error can arise. -/
theorem fgcmSigFgcm_fallbacks (sq : ℚ → ℚ) (w : ℚ) (l : List ℚ) :
    computeSigFgcmBand sq none l = 5 / 100
    ∧ (w ^ 2 < medianQ l → computeSigFgcmBand sq (some w) l = 1 / 1000)
    ∧ (medianQ l ≤ w ^ 2 →
        computeSigFgcmBand sq (some w) l = sq (w ^ 2 - medianQ l)
        ∧ 0 ≤ w ^ 2 - medianQ l) := by
  refine ⟨rfl, fun h => ?_, fun h => ?_⟩
  · simp [computeSigFgcmBand, h]
  · have h2 : ¬ (medianQ l > w ^ 2) := not_lt.mpr h
    exact ⟨by simp [computeSigFgcmBand, h2], by linarith⟩

/-- Witness for C7 on a singleton variance sample, exercising both the
large-error fallback and the subtraction branch. -/
theorem fgcmSigFgcm_fallbacks_witness :
    computeSigFgcmBand id none [(1 : ℚ)/100] = 5 / 100
    ∧ (((1 : ℚ)/100) ^ 2 < medianQ [(1 : ℚ)/100]
       ∧ computeSigFgcmBand id (some ((1 : ℚ)/100)) [(1 : ℚ)/100] = 1 / 1000)
    ∧ (medianQ [(1 : ℚ)/100] ≤ (1 : ℚ) ^ 2
       ∧ computeSigFgcmBand id (some (1 : ℚ)) [(1 : ℚ)/100] = id ((1 : ℚ) ^ 2 - medianQ [(1 : ℚ)/100])
       ∧ 0 ≤ (1 : ℚ) ^ 2 - medianQ [(1 : ℚ)/100]) := by
  have hm : medianQ [(1 : ℚ)/100] = 1/100 := medianQ_singleton _
  have hlt : ((1 : ℚ)/100) ^ 2 < medianQ [(1 : ℚ)/100] := by rw [hm]; norm_num
  have hle : medianQ [(1 : ℚ)/100] ≤ (1 : ℚ) ^ 2 := by rw [hm]; norm_num
  exact ⟨(fgcmSigFgcm_fallbacks id ((1 : ℚ)/100) [(1 : ℚ)/100]).1,
    ⟨hlt, (fgcmSigFgcm_fallbacks id ((1 : ℚ)/100) [(1 : ℚ)/100]).2.1 hlt⟩,
    ⟨hle, (fgcmSigFgcm_fallbacks id (1 : ℚ) [(1 : ℚ)/100]).2.2 hle⟩⟩

-- END
